import Mathlib

/-!
# Verification of the spencerTools two-role drafting assistant

Shallow embedding of the two source files of the repository:

* `src/author.py` — terminal front end (LangGraph loop with `creator_node`,
  `editor_node`, `parse_editor_response`, `read_multiline`, and the save
  section of `main`); embedded in namespace `Author`.
* `src/authorChainlit.py` — chat front end (`parse_editor_response` and the
  action callbacks `on_accept`, `on_diff`, `on_finish`, together with
  `editor_review` and `display_editor_results`); embedded in namespace
  `Chainlit`.

Python strings are modelled as `List Char` (all inputs of interest are
ASCII); `str.strip`, `str.lower`, `str.find`, slicing, `startswith` and
`endswith` are given as the executable functions below.  The external
language-model call is passed in as an `Except` value (error = the call
raised), and `difflib.unified_diff` — Python standard library, not
repository code — is passed in as an opaque function argument.  File writes
are modelled by returning `Option (filename × contents)`.
-/

/-- The whitespace characters recognised by the Python method `str.strip()`
(ASCII range: space, tab, newline, carriage return, vertical tab, form feed). -/
def isPySpace (c : Char) : Bool :=
  c == ' ' || c == '\t' || c == '\n' || c == '\r' || c == '\x0b' || c == '\x0c'

/-- Python `s.lstrip()`. -/
def lstrip (s : List Char) : List Char := s.dropWhile isPySpace

/-- Python `s.rstrip()`. -/
def rstrip (s : List Char) : List Char := s.rdropWhile isPySpace

/-- Python `s.strip()`: drop whitespace from both ends. -/
def pyStrip (s : List Char) : List Char := rstrip (lstrip s)

/-- Python `s.lower()` (ASCII model). -/
def pyLower (s : List Char) : List Char := s.map Char.toLower

/-- Python `haystack.find(pat)`: index of the first occurrence of `pat`,
`none` standing for the Python value `-1`. -/
def strFind (pat : List Char) : List Char → Option Nat
  | [] => if pat.isPrefixOf ([] : List Char) then some 0 else none
  | c :: t => if pat.isPrefixOf (c :: t) then some 0 else (strFind pat t).map (· + 1)

/-- The lowercase search key `"### suggestions"` used by both parsers. -/
def SUGG_MARK : List Char := ("### suggestions").data

/-- The lowercase search key `"### rewritten"` used by both parsers. -/
def REW_MARK : List Char := ("### rewritten").data

/-- The literal `"### SUGGESTIONS"` (header casing cleaned by `author.py`). -/
def suggCaps : List Char := ("### SUGGESTIONS").data

/-- The literal `"### Suggestions"` (header casing cleaned by `author.py`). -/
def suggTitle : List Char := ("### Suggestions").data

/-- The literal `"### REWRITTEN"` (header casing cleaned by `author.py`). -/
def rewCaps : List Char := ("### REWRITTEN").data

/-- The literal `"### Rewritten"` (header casing cleaned by `author.py`). -/
def rewTitle : List Char := ("### Rewritten").data

/-- The header-cleanup loop in `parse_editor_response` of `author.py`
(`for hdr in (...): if s.startswith(hdr): s = s[len(hdr):].strip()`). -/
def cleanHeaders (hdrs : List (List Char)) (s : List Char) : List Char :=
  hdrs.foldl (fun acc hdr => if hdr.isPrefixOf acc then pyStrip (acc.drop hdr.length) else acc) s

namespace Author

/-- The `parse_editor_response` of `src/author.py` (lines 83–109): find the two
case-insensitive markers; if either is missing return `(text.strip(), "")`;
otherwise slice — keeping the marker itself at the start of the
first-positioned field — and clean two exact header casings afterwards. -/
def parse_editor_response (text : List Char) : List Char × List Char :=
  let lower := pyLower text
  let sugg_idx := strFind SUGG_MARK lower
  let rew_idx := strFind REW_MARK lower
  if sugg_idx.isNone || rew_idx.isNone then (pyStrip text, [])
  else
    let si := sugg_idx.getD 0
    let ri := rew_idx.getD 0
    let pair :=
      if si < ri then
        (pyStrip ((text.drop si).take (ri - si)),
         pyStrip (text.drop (ri + rewCaps.length)))
      else
        (pyStrip (text.drop (si + suggCaps.length)),
         pyStrip ((text.drop ri).take (si - ri)))
    (cleanHeaders [suggCaps, suggTitle] pair.1, cleanHeaders [rewCaps, rewTitle] pair.2)

end Author

namespace Chainlit

/-- The `parse_editor_response` of `src/authorChainlit.py` (lines 37–53): same
marker search, but both fields are sliced strictly after their own marker
and no header cleanup is performed. -/
def parse_editor_response (text : List Char) : List Char × List Char :=
  let lower := pyLower text
  let sugg_idx := strFind SUGG_MARK lower
  let rew_idx := strFind REW_MARK lower
  if sugg_idx.isNone || rew_idx.isNone then (pyStrip text, [])
  else
    let si := sugg_idx.getD 0
    let ri := rew_idx.getD 0
    if si < ri then
      (pyStrip ((text.drop (si + SUGG_MARK.length)).take (ri - (si + SUGG_MARK.length))),
       pyStrip (text.drop (ri + REW_MARK.length)))
    else
      (pyStrip (text.drop (si + SUGG_MARK.length)),
       pyStrip ((text.drop (ri + REW_MARK.length)).take (si - (ri + REW_MARK.length))))

end Chainlit

/-- Python `"a\nb".splitlines()` (newline-only model): split at `'\n'`,
dropping a final empty fragment.  Auxiliary accumulator pass. -/
def splitlinesAux : List Char → List Char → List (List Char)
  | [], acc => [acc.reverse]
  | c :: t, acc => if c == '\n' then acc.reverse :: splitlinesAux t [] else splitlinesAux t (c :: acc)

/-- Python `s.splitlines()` as used by both `show_diff` functions. -/
def splitlines (s : List Char) : List (List Char) :=
  let parts := splitlinesAux s []
  if parts.getLast? == some ([] : List Char) then parts.dropLast else parts

/-- Modelled timestamp filename `time.strftime("draft_%Y-%m-%d_%H%M.md")`:
the `%Y-%m-%d` and `%H%M` fields are supplied externally (wall clock). -/
def default_name (date hm : List Char) : List Char :=
  ("draft_").data ++ date ++ ('_' :: (hm ++ (".md").data))

namespace Author

/-- The `DocState` of `src/author.py` (lines 59–64): the LangGraph session state. -/
structure DocState where
  content : List Char
  edited_version : List Char
  suggestions : List Char
  approved : Bool
  iteration : Nat
deriving DecidableEq, Repr

/-- The partial dictionary a LangGraph node returns; `none` = key absent. -/
structure StateUpdate where
  content : Option (List Char) := none
  edited_version : Option (List Char) := none
  suggestions : Option (List Char) := none
  approved : Option Bool := none
  iteration : Option Nat := none
deriving DecidableEq, Repr

/-- The LangGraph merge of a node result dictionary into the state:
present keys overwrite, absent keys keep the previous value. -/
def applyUpdate (s : DocState) (u : StateUpdate) : DocState :=
  { content := u.content.getD s.content
    edited_version := u.edited_version.getD s.edited_version
    suggestions := u.suggestions.getD s.suggestions
    approved := u.approved.getD s.approved
    iteration := u.iteration.getD s.iteration }

/-- The 70-character `"="` bar of `print_divider`. -/
def bar70 : List Char := List.replicate 70 '='

/-- The `print_divider` of `src/author.py` (lines 112–117), returning the single
string passed to `print`. -/
def print_divider (title : Option (List Char)) : List Char :=
  match title with
  | some t => '\n' :: (bar70 ++ '\n' :: (t ++ '\n' :: bar70))
  | none => '\n' :: bar70

/-- The `read_multiline` of `src/author.py` (lines 68–80): consume input lines up
to the first line whose stripped form is `"/done"` (or end of input), join
with newlines and strip.  Returns the text and the two lines it prints
(a blank line and the prompt). -/
def read_multiline (prompt : List Char) (lines : List (List Char)) : List Char × List (List Char) :=
  (pyStrip (List.intercalate (('\n') :: []) (lines.takeWhile fun l => pyStrip l != ("/done").data)),
   [([] : List Char), prompt])

/-- The welcome-block prints of the initial branch of `creator_node`: the divider
plus the blank line and prompt printed by `read_multiline`. -/
def welcome_prints (inputLines : List (List Char)) : List (List Char) :=
  print_divider (some (("WELCOME — Content Creator").data))
    :: (read_multiline (("What story would you like to create? Provide a suggestion or idea.\nType /done when finished.").data) inputLines).2

/-- The preamble `creator_node` prints before reading a menu choice
(suggestions block, rewrite preview, the five menu lines, and the choice
prompt) — lines 190–208 of `src/author.py`. -/
def menu_prints (state : DocState) : List (List Char) :=
  [print_divider (some (("EDITOR SUGGESTIONS").data))]
  ++ (if state.suggestions != ([] : List Char) then [state.suggestions]
      else [("(No suggestions returned — you can still iterate or edit.)").data])
  ++ (if state.edited_version != ([] : List Char) then
        [print_divider (some (("EDITOR REWRITTEN PREVIEW (first 600 chars)").data)),
         state.edited_version.take 600
           ++ (if 600 < state.edited_version.length then ("...").data else [])]
      else [])
  ++ [print_divider (some (("Choose an option").data)),
      ("[1] Accept the editor\x27s rewritten version").data,
      ("[2] Edit the draft yourself").data,
      ("[3] Ask the AI to revise based on your instructions").data,
      ("[4] Show a diff between current and editor version").data,
      ("[5] Finish and save current content to Markdown").data,
      ("Enter 1/2/3/4/5: ").data]

/-- The `creator_node` of `src/author.py` (lines 154–267).  External inputs:
`unified_diff` (the `difflib.unified_diff` rendering, standard library),
`inputLines` (the lines `read_multiline` will consume), `choiceLine` (the
raw answer to the menu prompt) and `llm` (result of `CREATOR_LLM.invoke`,
`Except.error` = the call raised).  Returns the partial state update and the
strings printed, in order. -/
def creator_node (unified_diff : List (List Char) → List (List Char) → List (List Char))
    (state : DocState) (inputLines : List (List Char)) (choiceLine : List Char)
    (llm : Except (List Char) (List Char)) : StateUpdate × List (List Char) :=
  if state.iteration == 0 && state.content == ([] : List Char) then
    if (read_multiline (("What story would you like to create? Provide a suggestion or idea.\nType /done when finished.").data) inputLines).1 == ([] : List Char) then
      ({ approved := some true }, welcome_prints inputLines ++ [("No suggestion entered. Exiting.").data])
    else
      match llm with
      | .ok initial_content =>
        ({ content := some initial_content, iteration := some (state.iteration + 1) },
         welcome_prints inputLines
           ++ [("\nGenerated initial story. Sending to the Editor for review...\n").data])
      | .error e =>
        ({ approved := some true },
         welcome_prints inputLines ++ [("Error during initial story generation: ").data ++ e])
  else if pyStrip choiceLine == ("1").data then
    if state.edited_version != ([] : List Char) then
      ({ content := some state.edited_version, iteration := some (state.iteration + 1) },
       menu_prints state ++ [("\nAccepted the editor\x27s rewrite.\n").data])
    else
      ({ iteration := some (state.iteration + 1) },
       menu_prints state ++ [("No rewritten version available to accept.").data])
  else if pyStrip choiceLine == ("2").data then
    if (read_multiline (("Edit your draft. Type /done when finished:").data) inputLines).1
        != ([] : List Char) then
      ({ content := some (read_multiline (("Edit your draft. Type /done when finished:").data) inputLines).1,
         iteration := some (state.iteration + 1) },
       menu_prints state
         ++ (read_multiline (("Edit your draft. Type /done when finished:").data) inputLines).2)
    else
      ({ iteration := some (state.iteration + 1) },
       menu_prints state
         ++ (read_multiline (("Edit your draft. Type /done when finished:").data) inputLines).2
         ++ [("(No changes made.)").data])
  else if pyStrip choiceLine == ("3").data then
    if pyStrip (read_multiline (("Describe how you\x27d like the AI to revise (tone, length, audience, etc.).\nType /done when finished:").data) inputLines).1 == ([] : List Char) then
      ({ iteration := some (state.iteration + 1) },
       menu_prints state
         ++ (read_multiline (("Describe how you\x27d like the AI to revise (tone, length, audience, etc.).\nType /done when finished:").data) inputLines).2
         ++ [("(No instructions provided. Skipping.)").data])
    else
      match llm with
      | .ok revised =>
        ({ content := some revised, iteration := some (state.iteration + 1) },
         menu_prints state
           ++ (read_multiline (("Describe how you\x27d like the AI to revise (tone, length, audience, etc.).\nType /done when finished:").data) inputLines).2
           ++ [("\nAI revision complete.\n").data])
      | .error e =>
        ({ iteration := some (state.iteration + 1) },
         menu_prints state
           ++ (read_multiline (("Describe how you\x27d like the AI to revise (tone, length, audience, etc.).\nType /done when finished:").data) inputLines).2
           ++ [("Error during AI revision: ").data ++ e])
  else if pyStrip choiceLine == ("4").data then
    if state.edited_version != ([] : List Char) then
      ({ iteration := some (state.iteration + 1) },
       menu_prints state
         ++ (print_divider (some (("DIFF: Current vs Editor Rewritten").data))
             :: unified_diff (splitlines state.content) (splitlines state.edited_version)))
    else
      ({ iteration := some (state.iteration + 1) },
       menu_prints state ++ [("No editor version to diff against.").data])
  else if pyStrip choiceLine == ("5").data then
    ({ approved := some true }, menu_prints state)
  else
    ({ iteration := some (state.iteration + 1) },
     menu_prints state ++ [("Invalid choice; continuing.").data])

/-- The `editor_node` of `src/author.py` (lines 270–303): review the stripped
content through the LLM (`llm` is the result of `EDITOR_LLM.invoke`), parse
its response; on failure report and fall back to a fixed suggestion note and
an empty rewrite. -/
def editor_node (state : DocState) (llm : Except (List Char) (List Char)) :
    StateUpdate × List (List Char) :=
  if pyStrip state.content == ([] : List Char) then ({}, [])
  else
    match llm with
    | .ok resp =>
      ({ suggestions := some (parse_editor_response resp).1,
         edited_version := some (parse_editor_response resp).2 },
       [print_divider (some ((("EDITOR REVIEW — Iteration ").data) ++ (toString state.iteration).data))])
    | .error e =>
      ({ suggestions := some (("(Editor call failed. You can continue editing manually.)").data),
         edited_version := some ([] : List Char) },
       [print_divider (some ((("EDITOR REVIEW — Iteration ").data) ++ (toString state.iteration).data)),
        ("Error during editing call: ").data ++ e])

/-- The `route_after_creator` of `src/author.py` (lines 308–309). -/
def route_after_creator (state : DocState) : List Char :=
  if state.approved then ("end").data else ("editor").data

/-- The `fname = input(...).strip() or default_name` in `main` of `src/author.py`:
the user answer stripped, falling back to the timestamp default. -/
def chosen_fname (date hm fnameInput : List Char) : List Char :=
  if pyStrip fnameInput == ([] : List Char) then default_name date hm else pyStrip fnameInput

/-- The filename `main` of `src/author.py` finally writes to: `".md"` is
appended when the lower-cased chosen name does not already end in `".md"`. -/
def main_save_fname (date hm fnameInput : List Char) : List Char :=
  if (".md").data.isSuffixOf (pyLower (chosen_fname date hm fnameInput)) then
    chosen_fname date hm fnameInput
  else chosen_fname date hm fnameInput ++ (".md").data

/-- The save section of `main` in `src/author.py` (lines 344–363): skip when
the stripped final content is empty; otherwise write the stripped content
plus one newline.  `none` = no file written; `some (name, contents)` = file
written.  (The success report prints the absolute path — an environment
fact that is not modelled.) -/
def main_save (content date hm fnameInput : List Char) : Option (List Char × List Char) :=
  if pyStrip content == ([] : List Char) then none
  else some (main_save_fname date hm fnameInput, pyStrip content ++ ['\n'])

end Author

namespace Chainlit

/-- The per-session values of `src/authorChainlit.py` that the modelled
handlers read or write (`cl.user_session` keys `content`, `suggestions`,
`edited_version`; the `context` key is only used by the un-modelled message
router and is omitted). -/
structure SessionState where
  content : List Char
  suggestions : List Char
  edited_version : List Char
deriving DecidableEq, Repr

/-- The `display_editor_results` of `src/authorChainlit.py` (lines 166–191):
the chat messages sent (the action buttons ride on the final message). -/
def display_editor_results (st : SessionState) : List (List Char) :=
  if st.suggestions == ([] : List Char) && st.edited_version == ([] : List Char) then
    [("The editor had no suggestions. What would you like to do next?").data]
  else
    [("**Editor\x27s Suggestions:**\n\n").data ++ st.suggestions]
    ++ (if st.edited_version != ([] : List Char) then
          [("**Editor\x27s Rewrite Preview:**\n\n").data ++
           (if 600 < st.edited_version.length then st.edited_version.take 600 ++ ("...").data
            else st.edited_version)]
        else [])
    ++ [("What would you like to do next?").data]

/-- The `editor_review` of `src/authorChainlit.py` (lines 138–164): `resp` is the
text returned by `editor_llm.ainvoke` (this handler has no exception
handling, so only the success path exists in the code). -/
def editor_review (st : SessionState) (resp : List Char) : SessionState × List (List Char) :=
  if st.content == ([] : List Char) then (st, [])
  else
    let pr := parse_editor_response resp
    let st1 := { st with suggestions := pr.1, edited_version := pr.2 }
    (st1, display_editor_results st1)

/-- The `on_accept` of `src/authorChainlit.py` (lines 194–202). -/
def on_accept (st : SessionState) (resp : List Char) : SessionState × List (List Char) :=
  if st.edited_version != ([] : List Char) then
    let st1 := { st with content := st.edited_version }
    let r := editor_review st1 resp
    (r.1, ("Accepted the editor\x27s rewrite. Rerunning review...").data :: r.2)
  else
    (st, [("No rewritten version available to accept.").data])

/-- The `show_diff` of `src/authorChainlit.py` (lines 252–257); `unified_diff` is
the standard-library `difflib.unified_diff`, passed in opaquely. -/
def show_diff (unified_diff : List (List Char) → List (List Char) → List (List Char))
    (a b : List Char) : List Char :=
  List.intercalate (('\n') :: []) (unified_diff (splitlines a) (splitlines b))

/-- The `on_diff` of `src/authorChainlit.py` (lines 218–230): renders the diff
and re-displays the option menu; no session value is written. -/
def on_diff (unified_diff : List (List Char) → List (List Char) → List (List Char))
    (st : SessionState) : SessionState × List (List Char) :=
  if st.edited_version == ([] : List Char) then
    (st, [("No editor version to diff against.").data])
  else
    (st, (("**Diff:**\n```diff\n").data
          ++ show_diff unified_diff st.content st.edited_version ++ ("\n```").data)
         :: display_editor_results st)

/-- The `on_finish` of `src/authorChainlit.py` (lines 232–249): skip when content
is empty, otherwise write the content plus one newline under the timestamp
filename.  First component: `none` = no file written, `some` = the written
(name, contents).  (The saved-path confirmation message shows the absolute
path, an environment fact that is not modelled.) -/
def on_finish (st : SessionState) (date hm : List Char) :
    Option (List Char × List Char) × List (List Char) :=
  if st.content == ([] : List Char) then (none, [("Nothing to save!").data])
  else
    (some (default_name date hm, st.content ++ ['\n']),
     [("**Final Content:**\n\n").data ++ st.content])

end Chainlit

/-! ## Lemmas about the Python string primitives -/

theorem lstrip_cons_not {c : Char} (h : isPySpace c = false) (t : List Char) :
    lstrip (c :: t) = c :: t := by
  simp [lstrip, List.dropWhile_cons, h]

theorem rstrip_cons (c : Char) (t : List Char) :
    rstrip (c :: t) = if rstrip t = [] then (if isPySpace c then [] else [c]) else c :: rstrip t := by
  have hrev : (c :: t).reverse = t.reverse ++ [c] := by simp
  rw [rstrip, List.rdropWhile, hrev, List.dropWhile_append]
  by_cases hb : (t.reverse.dropWhile isPySpace).isEmpty
  · have hnil : rstrip t = [] := by
      simp only [rstrip, List.rdropWhile]
      rw [List.isEmpty_iff.mp hb]
      rfl
    rw [if_pos hb, if_pos hnil]
    by_cases hc : isPySpace c
    · simp [List.dropWhile_cons, hc]
    · simp [List.dropWhile_cons, hc]
  · have hnotnil : ¬ rstrip t = [] := by
      simp only [rstrip, List.rdropWhile]
      intro hcon
      rw [List.reverse_eq_nil_iff] at hcon
      rw [hcon] at hb
      simp at hb
    rw [if_neg hb, if_neg hnotnil]
    simp [rstrip, List.rdropWhile]

theorem rstrip_nil : rstrip ([] : List Char) = [] := rfl

theorem lstrip_rstrip_comm (s : List Char) : lstrip (rstrip s) = rstrip (lstrip s) := by
  induction s with
  | nil => rfl
  | cons c t ih =>
    have hl : lstrip (c :: t) = if isPySpace c then lstrip t else c :: t := by
      by_cases hc : isPySpace c <;> simp [lstrip, List.dropWhile_cons, hc]
    rw [rstrip_cons, hl]
    by_cases hrt : rstrip t = []
    · rw [if_pos hrt]
      by_cases hc : isPySpace c
      · rw [if_pos hc, if_pos hc]
        have hall : ∀ x ∈ t, isPySpace x := by
          have := (List.rdropWhile_eq_nil_iff (p := isPySpace) (l := t)).mp hrt
          exact this
        have hlt : lstrip t = [] := List.dropWhile_eq_nil_iff.mpr hall
        rw [hlt, rstrip_nil]
        rfl
      · rw [if_neg hc, if_neg hc]
        have : lstrip [c] = [c] := lstrip_cons_not (by simpa using hc) []
        rw [this, rstrip_cons, hrt, if_pos rfl, if_neg hc]
    · rw [if_neg hrt]
      by_cases hc : isPySpace c
      · rw [if_pos hc]
        have : lstrip (c :: rstrip t) = lstrip (rstrip t) := by
          simp [lstrip, List.dropWhile_cons, hc]
        rw [this, ih]
      · rw [if_neg hc]
        rw [lstrip_cons_not (by simpa using hc), rstrip_cons, if_neg hrt]

theorem rstrip_idem (s : List Char) : rstrip (rstrip s) = rstrip s :=
  List.rdropWhile_idempotent isPySpace s

theorem pyStrip_rstrip (s : List Char) : pyStrip (rstrip s) = pyStrip s := by
  rw [pyStrip, lstrip_rstrip_comm, rstrip_idem]
  rfl

theorem pyStrip_idem (s : List Char) : pyStrip (pyStrip s) = pyStrip s := by
  rw [pyStrip, pyStrip, lstrip_rstrip_comm]
  have hll : lstrip (lstrip s) = lstrip s := List.dropWhile_idempotent isPySpace s
  rw [hll, rstrip_idem]

/-- The `rstrip` passes over a left factor whose last element is not whitespace. -/
theorem rstrip_append (a b : List Char) (c : Char) (h : isPySpace c = false) :
    rstrip ((a ++ [c]) ++ b) = (a ++ [c]) ++ rstrip b := by
  have key : List.dropWhile isPySpace (b.reverse ++ (c :: a.reverse))
      = List.dropWhile isPySpace b.reverse ++ (c :: a.reverse) := by
    rw [List.dropWhile_append]
    by_cases hb : (b.reverse.dropWhile isPySpace).isEmpty
    · rw [if_pos hb, List.isEmpty_iff.mp hb, List.nil_append,
        List.dropWhile_cons_of_neg (by simp [h])]
    · rw [if_neg hb]
  have hrev : ((a ++ [c]) ++ b).reverse = b.reverse ++ (c :: a.reverse) := by simp
  rw [rstrip, rstrip, List.rdropWhile, List.rdropWhile, hrev, key]
  simp

/-- The `lstrip` passes over a nonempty left factor whose first element is not
whitespace. -/
theorem lstrip_cons_append (c : Char) (a b : List Char) (h : isPySpace c = false) :
    lstrip ((c :: a) ++ b) = (c :: a) ++ b := by
  simpa using lstrip_cons_not h (a ++ b)

theorem isPrefixOf_append_self (a b : List Char) : a.isPrefixOf (a ++ b) = true := by
  simp

theorem eq_of_isPrefixOf_append {a b : List Char} (x : List Char) (hlen : a.length = b.length)
    (hp : a.isPrefixOf (b ++ x) = true) : a = b := by
  induction a generalizing b with
  | nil =>
    cases b with
    | nil => rfl
    | cons y ys => exact absurd hlen (by simp)
  | cons c cs ih =>
    cases b with
    | nil => exact absurd hlen (by simp)
    | cons y ys =>
      rw [List.cons_append] at hp
      simp only [List.isPrefixOf, Bool.and_eq_true, beq_iff_eq] at hp
      obtain ⟨h1, h2⟩ := hp
      have hl : cs.length = ys.length := by simpa using hlen
      rw [h1, ih hl h2]

theorem not_isPrefixOf_of_length_eq_ne {a b : List Char} (hlen : a.length = b.length)
    (hne : a ≠ b) (x : List Char) : a.isPrefixOf (b ++ x) = false := by
  cases hp : a.isPrefixOf (b ++ x) with
  | false => rfl
  | true => exact absurd (eq_of_isPrefixOf_append x hlen hp) hne

/-- The `pyStrip` passes over a header-like left factor (nonempty, with
non-whitespace first and last characters), trimming only the right part. -/
theorem pyStrip_hdr_append (hd : List Char) (c0 : Char) (t0 w : List Char) (cl : Char)
    (hcons : hd = c0 :: t0) (hsnoc : hd = w ++ [cl])
    (h0 : isPySpace c0 = false) (hl : isPySpace cl = false) (x : List Char) :
    pyStrip (hd ++ x) = hd ++ rstrip x := by
  have h1 : lstrip (hd ++ x) = hd ++ x := by
    rw [hcons]
    exact lstrip_cons_append _ _ _ h0
  have h2 : rstrip (hd ++ x) = hd ++ rstrip x := by
    rw [hsnoc]
    exact rstrip_append _ _ _ hl
  rw [pyStrip, h1, h2]

/-- One step of the header-cleanup loop. -/
def clean1 (hdr s : List Char) : List Char :=
  if hdr.isPrefixOf s then pyStrip (s.drop hdr.length) else s

theorem cleanHeaders_pair (h1n h2n s : List Char) :
    cleanHeaders [h1n, h2n] s = clean1 h2n (clean1 h1n s) := rfl

theorem clean1_strip (hdr x : List Char) : clean1 hdr (hdr ++ rstrip x) = pyStrip x := by
  rw [clean1, if_pos (isPrefixOf_append_self _ _), List.drop_left, pyStrip_rstrip]

theorem clean1_noop (hdr s : List Char) (h : hdr.isPrefixOf s = false) : clean1 hdr s = s := by
  rw [clean1, if_neg]
  intro hc
  rw [h] at hc
  exact Bool.false_ne_true hc

/-- Cleaning the author-side header pair off `hd ++ rstrip x` yields
`pyStrip x`, for `hd` either element of the pair, provided the second header
is not again at the front of the remainder. -/
theorem cleanHeaders_strips (h1n h2n hd x : List Char)
    (hdisj : hd = h1n ∨ hd = h2n)
    (hlen : h1n.length = h2n.length) (hne : h1n ≠ h2n)
    (hn2 : h2n.isPrefixOf (pyStrip x) = false) :
    cleanHeaders [h1n, h2n] (hd ++ rstrip x) = pyStrip x := by
  rw [cleanHeaders_pair]
  rcases hdisj with h | h
  · subst h
    rw [clean1_strip, clean1_noop _ _ hn2]
  · subst h
    rw [clean1_noop _ _ (not_isPrefixOf_of_length_eq_ne hlen hne _), clean1_strip]

/-- Cleaning headers is the identity when neither header is at the front. -/
theorem cleanHeaders_noop (h1n h2n s : List Char)
    (hn1 : h1n.isPrefixOf s = false) (hn2 : h2n.isPrefixOf s = false) :
    cleanHeaders [h1n, h2n] s = s := by
  rw [cleanHeaders_pair, clean1_noop _ _ hn1, clean1_noop _ _ hn2]

/-! ## Behaviour of the two parsers -/

/-- When either marker is missing, both parsers return `(text.strip(), "")`. -/
theorem parse_missing (text : List Char)
    (h : strFind SUGG_MARK (pyLower text) = none ∨ strFind REW_MARK (pyLower text) = none) :
    Author.parse_editor_response text = (pyStrip text, [])
    ∧ Chainlit.parse_editor_response text = (pyStrip text, []) := by
  rcases h with h | h <;>
    exact ⟨by simp [Author.parse_editor_response, h], by simp [Chainlit.parse_editor_response, h]⟩

/-- In-order behaviour of the chat-front-end parser: both fields are the
stripped text strictly after their own marker (suggestions stopping at the
`REWRITTEN` marker). -/
theorem chainlit_parse_inorder (text : List Char) (si ri : Nat)
    (hs : strFind SUGG_MARK (pyLower text) = some si)
    (hr : strFind REW_MARK (pyLower text) = some ri)
    (hlt : si < ri) :
    Chainlit.parse_editor_response text
      = (pyStrip ((text.drop (si + 15)).take (ri - (si + 15))), pyStrip (text.drop (ri + 13))) := by
  simp only [Chainlit.parse_editor_response, hs, hr, Option.isNone_some, Bool.or_self,
    Option.getD_some, if_pos hlt, show SUGG_MARK.length = 15 from rfl,
    show REW_MARK.length = 13 from rfl]
  simp

/-- Reversed-order behaviour of the chat-front-end parser. -/
theorem chainlit_parse_reversed (text : List Char) (si ri : Nat)
    (hs : strFind SUGG_MARK (pyLower text) = some si)
    (hr : strFind REW_MARK (pyLower text) = some ri)
    (hge : ¬ si < ri) :
    Chainlit.parse_editor_response text
      = (pyStrip (text.drop (si + 15)), pyStrip ((text.drop (ri + 13)).take (si - (ri + 13)))) := by
  simp only [Chainlit.parse_editor_response, hs, hr, Option.isNone_some, Bool.or_self,
    Option.getD_some, if_neg hge, show SUGG_MARK.length = 15 from rfl,
    show REW_MARK.length = 13 from rfl]
  simp

/-- In-order behaviour of the terminal-front-end parser, provided the
`SUGGESTIONS` marker occurrence is spelled in one of the two casings the
header cleanup handles, and no further header token survives at the front of
either sliced field. -/
theorem author_parse_inorder (text : List Char) (si ri : Nat)
    (hs : strFind SUGG_MARK (pyLower text) = some si)
    (hr : strFind REW_MARK (pyLower text) = some ri)
    (hlt : si < ri) (hle : si + 15 ≤ ri)
    (hhdr : (text.drop si).take 15 = suggCaps ∨ (text.drop si).take 15 = suggTitle)
    (hn2 : suggTitle.isPrefixOf (pyStrip ((text.drop (si + 15)).take (ri - (si + 15)))) = false)
    (hw1 : rewCaps.isPrefixOf (pyStrip (text.drop (ri + 13))) = false)
    (hw2 : rewTitle.isPrefixOf (pyStrip (text.drop (ri + 13))) = false) :
    Author.parse_editor_response text
      = (pyStrip ((text.drop (si + 15)).take (ri - (si + 15))), pyStrip (text.drop (ri + 13))) := by
  have hred : Author.parse_editor_response text
      = (cleanHeaders [suggCaps, suggTitle] (pyStrip ((text.drop si).take (ri - si))),
         cleanHeaders [rewCaps, rewTitle] (pyStrip (text.drop (ri + 13)))) := by
    simp only [Author.parse_editor_response, hs, hr, Option.isNone_some, Bool.or_self,
      Option.getD_some, if_pos hlt, show rewCaps.length = 13 from rfl]
    simp
  have hsplit : (text.drop si).take (ri - si)
      = (text.drop si).take 15 ++ (text.drop (si + 15)).take (ri - (si + 15)) := by
    have h15 : ri - si = 15 + (ri - (si + 15)) := by omega
    rw [h15, List.take_add, List.drop_drop]
  rw [hred, hsplit]
  rcases hhdr with hh | hh
  · rw [hh,
      pyStrip_hdr_append suggCaps '#' (("## SUGGESTIONS").data) (("### SUGGESTION").data) 'S'
        (by decide) (by decide) (by decide) (by decide),
      cleanHeaders_strips suggCaps suggTitle suggCaps _ (Or.inl rfl) (by decide) (by decide) hn2,
      cleanHeaders_noop _ _ _ hw1 hw2]
  · rw [hh,
      pyStrip_hdr_append suggTitle '#' (("## Suggestions").data) (("### Suggestion").data) 's'
        (by decide) (by decide) (by decide) (by decide),
      cleanHeaders_strips suggCaps suggTitle suggTitle _ (Or.inr rfl) (by decide) (by decide) hn2,
      cleanHeaders_noop _ _ _ hw1 hw2]

/-- Reversed-order behaviour of the terminal-front-end parser, under the
analogous casing conditions on the `REWRITTEN` marker occurrence. -/
theorem author_parse_reversed (text : List Char) (si ri : Nat)
    (hs : strFind SUGG_MARK (pyLower text) = some si)
    (hr : strFind REW_MARK (pyLower text) = some ri)
    (hge : ¬ si < ri) (hle : ri + 13 ≤ si)
    (hhdr : (text.drop ri).take 13 = rewCaps ∨ (text.drop ri).take 13 = rewTitle)
    (hn2 : rewTitle.isPrefixOf (pyStrip ((text.drop (ri + 13)).take (si - (ri + 13)))) = false)
    (hu1 : suggCaps.isPrefixOf (pyStrip (text.drop (si + 15))) = false)
    (hu2 : suggTitle.isPrefixOf (pyStrip (text.drop (si + 15))) = false) :
    Author.parse_editor_response text
      = (pyStrip (text.drop (si + 15)), pyStrip ((text.drop (ri + 13)).take (si - (ri + 13)))) := by
  have hred : Author.parse_editor_response text
      = (cleanHeaders [suggCaps, suggTitle] (pyStrip (text.drop (si + 15))),
         cleanHeaders [rewCaps, rewTitle] (pyStrip ((text.drop ri).take (si - ri)))) := by
    simp only [Author.parse_editor_response, hs, hr, Option.isNone_some, Bool.or_self,
      Option.getD_some, if_neg hge, show suggCaps.length = 15 from rfl]
    simp
  have hsplit : (text.drop ri).take (si - ri)
      = (text.drop ri).take 13 ++ (text.drop (ri + 13)).take (si - (ri + 13)) := by
    have h13 : si - ri = 13 + (si - (ri + 13)) := by omega
    rw [h13, List.take_add, List.drop_drop]
  rw [hred, hsplit, cleanHeaders_noop _ _ _ hu1 hu2]
  rcases hhdr with hh | hh
  · rw [hh,
      pyStrip_hdr_append rewCaps '#' (("## REWRITTEN").data) (("### REWRITTE").data) 'N'
        (by decide) (by decide) (by decide) (by decide),
      cleanHeaders_strips rewCaps rewTitle rewCaps _ (Or.inl rfl) (by decide) (by decide) hn2]
  · rw [hh,
      pyStrip_hdr_append rewTitle '#' (("## Rewritten").data) (("### Rewritte").data) 'n'
        (by decide) (by decide) (by decide) (by decide),
      cleanHeaders_strips rewCaps rewTitle rewTitle _ (Or.inr rfl) (by decide) (by decide) hn2]

/-! ## Claim theorems: the response parser (C1, C2, C7, C8) -/

/-- Claim C1 (amended).  For every input whose first case-insensitive
`### SUGGESTIONS` occurrence (at `si`) precedes the first `### REWRITTEN`
occurrence (at `ri`), both front ends return the whitespace-stripped text
strictly between/after the markers — the chat front end unconditionally, the
terminal front end provided the `SUGGESTIONS` occurrence is spelled
`### SUGGESTIONS` or `### Suggestions` (the only casings its header cleanup
strips; the counterexample shows any other casing survives at the front of
`suggestions`) and no further header token survives at the front of either
sliced field. -/
theorem claim_C1 (text : List Char) (si ri : Nat)
    (hs : strFind SUGG_MARK (pyLower text) = some si)
    (hr : strFind REW_MARK (pyLower text) = some ri)
    (hlt : si < ri) (hle : si + 15 ≤ ri)
    (hhdr : (text.drop si).take 15 = suggCaps ∨ (text.drop si).take 15 = suggTitle)
    (hn2 : suggTitle.isPrefixOf (pyStrip ((text.drop (si + 15)).take (ri - (si + 15)))) = false)
    (hw1 : rewCaps.isPrefixOf (pyStrip (text.drop (ri + 13))) = false)
    (hw2 : rewTitle.isPrefixOf (pyStrip (text.drop (ri + 13))) = false) :
    Author.parse_editor_response text
      = (pyStrip ((text.drop (si + 15)).take (ri - (si + 15))), pyStrip (text.drop (ri + 13)))
    ∧ Chainlit.parse_editor_response text
      = (pyStrip ((text.drop (si + 15)).take (ri - (si + 15))), pyStrip (text.drop (ri + 13))) :=
  ⟨author_parse_inorder text si ri hs hr hlt hle hhdr hn2 hw1 hw2,
   chainlit_parse_inorder text si ri hs hr hlt⟩

/-- Claim C1 counterexample.  On a marker spelled `### sUGGESTIONS` the
terminal front end returns the header token at the front of `suggestions`
(actual value `"### sUGGESTIONS\nA"`), not the claimed stripped text between
the markers (`"A"`). -/
theorem claim_C1_counterexample :
    Author.parse_editor_response (("### sUGGESTIONS\nA\n### REWRITTEN\nB").data)
      ≠ (((("A").data : List Char), (("B").data : List Char))) := by decide

/-- Claim C1 witness: a well-formed editor response, evaluated concretely. -/
theorem claim_C1_witness :
    Author.parse_editor_response (("### SUGGESTIONS\n- a\n### REWRITTEN\nGood.").data)
      = (((("- a").data : List Char), (("Good.").data : List Char)))
    ∧ Chainlit.parse_editor_response (("### SUGGESTIONS\n- a\n### REWRITTEN\nGood.").data)
      = (((("- a").data : List Char), (("Good.").data : List Char))) := by
  have h := claim_C1 (("### SUGGESTIONS\n- a\n### REWRITTEN\nGood.").data) 0 20
    (by decide) (by decide) (by decide) (by decide) (Or.inl (by decide))
    (by decide) (by decide) (by decide)
  exact ⟨h.1.trans (by decide), h.2.trans (by decide)⟩

/-- Claim C2 (confirmed).  For every input in which at least one of the two
case-insensitive markers is absent, both `parse_editor_response` functions
return the pair (whitespace-trimmed whole input, `""`); being total Lean
functions, they never raise and never return a `None`-like value. -/
theorem claim_C2 (text : List Char)
    (h : strFind SUGG_MARK (pyLower text) = none ∨ strFind REW_MARK (pyLower text) = none) :
    Author.parse_editor_response text = (pyStrip text, ([] : List Char))
    ∧ Chainlit.parse_editor_response text = (pyStrip text, ([] : List Char)) :=
  parse_missing text h

/-- Claim C2 witness: a marker-free response, evaluated concretely. -/
theorem claim_C2_witness :
    Author.parse_editor_response (("Plain editor response with no markers. ").data)
      = (((("Plain editor response with no markers.").data : List Char), ([] : List Char)))
    ∧ Chainlit.parse_editor_response (("Plain editor response with no markers. ").data)
      = (((("Plain editor response with no markers.").data : List Char), ([] : List Char))) := by
  have h := claim_C2 (("Plain editor response with no markers. ").data) (Or.inl (by decide))
  exact ⟨h.1.trans (by decide), h.2.trans (by decide)⟩

/-- Claim C7 (amended).  For every input whose first `### REWRITTEN` occurrence
(at `ri`) precedes the first `### SUGGESTIONS` occurrence (at `si`), each
field receives the stripped content after its own marker — the chat front
end unconditionally, the terminal front end provided the `REWRITTEN`
occurrence is spelled `### REWRITTEN` or `### Rewritten` (the counterexample
shows any other casing survives at the front of `rewritten`) and no further
header token survives at the front of either sliced field. -/
theorem claim_C7 (text : List Char) (si ri : Nat)
    (hs : strFind SUGG_MARK (pyLower text) = some si)
    (hr : strFind REW_MARK (pyLower text) = some ri)
    (hge : ¬ si < ri) (hle : ri + 13 ≤ si)
    (hhdr : (text.drop ri).take 13 = rewCaps ∨ (text.drop ri).take 13 = rewTitle)
    (hn2 : rewTitle.isPrefixOf (pyStrip ((text.drop (ri + 13)).take (si - (ri + 13)))) = false)
    (hu1 : suggCaps.isPrefixOf (pyStrip (text.drop (si + 15))) = false)
    (hu2 : suggTitle.isPrefixOf (pyStrip (text.drop (si + 15))) = false) :
    Author.parse_editor_response text
      = (pyStrip (text.drop (si + 15)), pyStrip ((text.drop (ri + 13)).take (si - (ri + 13))))
    ∧ Chainlit.parse_editor_response text
      = (pyStrip (text.drop (si + 15)), pyStrip ((text.drop (ri + 13)).take (si - (ri + 13)))) :=
  ⟨author_parse_reversed text si ri hs hr hge hle hhdr hn2 hu1 hu2,
   chainlit_parse_reversed text si ri hs hr hge⟩

/-- Claim C7 counterexample.  With the reversed markers spelled in lower case,
the terminal front end returns `"### rewritten\nB"` as the rewrite — the
marker survives — rather than the claimed trimmed text after the marker. -/
theorem claim_C7_counterexample :
    Author.parse_editor_response (("### rewritten\nB\n### SUGGESTIONS\nA").data)
      ≠ (((("A").data : List Char), (("B").data : List Char))) := by decide

/-- Claim C7 witness: canonically-cased reversed markers, evaluated concretely. -/
theorem claim_C7_witness :
    Author.parse_editor_response (("### REWRITTEN\nB good\n### SUGGESTIONS\n- a").data)
      = (((("- a").data : List Char), (("B good").data : List Char)))
    ∧ Chainlit.parse_editor_response (("### REWRITTEN\nB good\n### SUGGESTIONS\n- a").data)
      = (((("- a").data : List Char), (("B good").data : List Char))) := by
  have h := claim_C7 (("### REWRITTEN\nB good\n### SUGGESTIONS\n- a").data) 21 0
    (by decide) (by decide) (by decide) (by decide) (Or.inl (by decide))
    (by decide) (by decide) (by decide)
  exact ⟨h.1.trans (by decide), h.2.trans (by decide)⟩

/-- Claim C8 (amended).  The two `parse_editor_response` implementations agree
on inputs whose markers appear in order and in one of the two casings the
header cleanup of the terminal front end handles (with no stray header token at
the front of the sliced fields); the counterexample shows they are *not* one
and the same parser on all inputs. -/
theorem claim_C8 (text : List Char) (si ri : Nat)
    (hs : strFind SUGG_MARK (pyLower text) = some si)
    (hr : strFind REW_MARK (pyLower text) = some ri)
    (hlt : si < ri) (hle : si + 15 ≤ ri)
    (hhdr : (text.drop si).take 15 = suggCaps ∨ (text.drop si).take 15 = suggTitle)
    (hn2 : suggTitle.isPrefixOf (pyStrip ((text.drop (si + 15)).take (ri - (si + 15)))) = false)
    (hw1 : rewCaps.isPrefixOf (pyStrip (text.drop (ri + 13))) = false)
    (hw2 : rewTitle.isPrefixOf (pyStrip (text.drop (ri + 13))) = false) :
    Author.parse_editor_response text = Chainlit.parse_editor_response text :=
  (author_parse_inorder text si ri hs hr hlt hle hhdr hn2 hw1 hw2).trans
    (chainlit_parse_inorder text si ri hs hr hlt).symm

/-- Claim C8 counterexample.  On lower-case markers the terminal front end
keeps the `### suggestions` token (its cleanup misses that casing) while the
chat front end slices past it: the two return different pairs. -/
theorem claim_C8_counterexample :
    Author.parse_editor_response (("### suggestions A\n### rewritten B").data)
      ≠ Chainlit.parse_editor_response (("### suggestions A\n### rewritten B").data) := by decide

/-- Claim C8 witness: agreement on a title-cased well-formed response. -/
theorem claim_C8_witness :
    Author.parse_editor_response (("### Suggestions\n- b\n### REWRITTEN\nOk").data)
      = Chainlit.parse_editor_response (("### Suggestions\n- b\n### REWRITTEN\nOk").data) :=
  claim_C8 (("### Suggestions\n- b\n### REWRITTEN\nOk").data) 0 20
    (by decide) (by decide) (by decide) (by decide) (Or.inr (by decide))
    (by decide) (by decide) (by decide)

/-! ## Lemmas about the terminal front end loop -/

/-- The guard of the initial branch of `creator_node` is false away from the
initial state. -/
theorem initial_cond_false {s : Author.DocState} (h : ¬ (s.iteration = 0 ∧ s.content = [])) :
    (s.iteration == 0 && s.content == ([] : List Char)) = false := by
  by_cases h1 : s.iteration = 0
  · have h2 : s.content ≠ [] := fun hc => h ⟨h1, hc⟩
    simp [h1, h2]
  · simp [h1]

/-- Typing `/done` as the very first line makes `read_multiline` return `""`. -/
theorem read_multiline_done (p : List Char) (rest : List (List Char)) :
    (Author.read_multiline p ((("/done").data) :: rest)).1 = [] := by
  show pyStrip (List.intercalate _ (List.takeWhile _ _)) = []
  rw [List.takeWhile_cons_of_neg (by decide)]
  rfl

/-- The text returned by `read_multiline` is already stripped. -/
theorem read_multiline_fst_strip (p : List Char) (lines : List (List Char)) :
    pyStrip (Author.read_multiline p lines).1 = (Author.read_multiline p lines).1 := by
  simp only [Author.read_multiline]
  exact pyStrip_idem _

/-! ## Claim theorems: the turn controller (C3, C4, C5, C9, C10) -/

/-- Claim C9 (amended).  Across all transitions, `iteration` is monotonically
non-decreasing: every `creator_node` transition leaves it unchanged or
increments it by exactly one, and `editor_node` never changes it.  (The
counterexample shows it does not increment *exactly* on completed Creator
turns: the Finish dispatch completes a creator turn without incrementing,
while Show-diff increments without producing anything.) -/
theorem claim_C9 :
    (∀ (ud : List (List Char) → List (List Char) → List (List Char)) (s : Author.DocState)
        (lines : List (List Char)) (ch : List Char) (llm : Except (List Char) (List Char)),
      (Author.applyUpdate s (Author.creator_node ud s lines ch llm).1).iteration = s.iteration
      ∨ (Author.applyUpdate s (Author.creator_node ud s lines ch llm).1).iteration = s.iteration + 1)
    ∧ (∀ (s : Author.DocState) (llm : Except (List Char) (List Char)),
      (Author.applyUpdate s (Author.editor_node s llm).1).iteration = s.iteration) := by
  constructor
  · intro ud s lines ch llm
    cases llm <;>
      (unfold Author.creator_node
       split_ifs <;> first | (left; rfl) | (right; rfl))
  · intro s llm
    cases llm <;> (unfold Author.editor_node; split_ifs <;> rfl)

/-- Claim C9 counterexample.  `iteration` does not "increment exactly when a
Creator turn completes": the Finish dispatch (choice `"5"`) completes a
creator-node turn with `iteration` unchanged, while the Show-diff dispatch
(choice `"4"`) increments it although nothing was created or revised. -/
theorem claim_C9_counterexample :
    (Author.applyUpdate ⟨("D").data, ("R").data, ("S").data, false, 2⟩
        (Author.creator_node (fun _ _ => []) ⟨("D").data, ("R").data, ("S").data, false, 2⟩ []
          (("5").data) (Except.ok ([] : List Char))).1).iteration = 2
    ∧ Author.applyUpdate ⟨("D").data, ("R").data, ("S").data, false, 2⟩
        (Author.creator_node (fun _ _ => []) ⟨("D").data, ("R").data, ("S").data, false, 2⟩ []
          (("4").data) (Except.ok ([] : List Char))).1
      = ⟨("D").data, ("R").data, ("S").data, false, 3⟩ := by decide

/-- Claim C4 (amended).  The Show-diff action leaves `content`, `suggestions`,
`rewritten` and `done` unchanged and control passes on to the next turn of
the loop — but in the terminal front end the update dictionary is exactly
`{iteration: iteration + 1}`, so `iteration` is *not* unchanged; in the chat
front end the session state is completely untouched. -/
theorem claim_C4 :
    (∀ (ud : List (List Char) → List (List Char) → List (List Char)) (s : Author.DocState)
        (lines : List (List Char)) (ch : List Char) (llm : Except (List Char) (List Char)),
      pyStrip ch = ("4").data → ¬ (s.iteration = 0 ∧ s.content = []) → s.approved = false →
        (Author.creator_node ud s lines ch llm).1 = { iteration := some (s.iteration + 1) }
        ∧ Author.route_after_creator
            (Author.applyUpdate s (Author.creator_node ud s lines ch llm).1) = ("editor").data)
    ∧ (∀ (ud : List (List Char) → List (List Char) → List (List Char))
        (st : Chainlit.SessionState), (Chainlit.on_diff ud st).1 = st) := by
  constructor
  · intro ud s lines ch llm hch hinit happr
    have hupd : (Author.creator_node ud s lines ch llm).1 = { iteration := some (s.iteration + 1) } := by
      simp only [Author.creator_node]
      rw [if_neg (ne_true_of_eq_false (initial_cond_false hinit)), hch,
        if_neg (by decide), if_neg (by decide), if_neg (by decide), if_pos (by decide)]
      split <;> rfl
    refine ⟨hupd, ?_⟩
    rw [hupd]
    simp [Author.applyUpdate, Author.route_after_creator, happr]
  · intro ud st
    unfold Chainlit.on_diff
    split <;> rfl

/-- Claim C4 counterexample.  A Show-diff action in the terminal front end does
change the draft state: `iteration` goes from 2 to 3. -/
theorem claim_C4_counterexample :
    Author.applyUpdate ⟨("D").data, ("R").data, ("S").data, false, 2⟩
        (Author.creator_node (fun _ _ => []) ⟨("D").data, ("R").data, ("S").data, false, 2⟩ []
          (("4").data) (Except.ok ([] : List Char))).1
      ≠ ⟨("D").data, ("R").data, ("S").data, false, 2⟩ := by decide

/-- Claim C4 witness: the Show-diff dispatch evaluated on a concrete state. -/
theorem claim_C4_witness :
    (Author.creator_node (fun _ _ => []) ⟨("D").data, ("R").data, ("S").data, false, 2⟩ []
        (("4").data) (Except.ok ([] : List Char))).1 = { iteration := some 3 }
    ∧ Author.route_after_creator (Author.applyUpdate ⟨("D").data, ("R").data, ("S").data, false, 2⟩
        (Author.creator_node (fun _ _ => []) ⟨("D").data, ("R").data, ("S").data, false, 2⟩ []
          (("4").data) (Except.ok ([] : List Char))).1) = ("editor").data
    ∧ (Chainlit.on_diff (fun _ _ => []) ⟨("D").data, ("S").data, ("R").data⟩).1
        = ⟨("D").data, ("S").data, ("R").data⟩ := by
  have h1 := claim_C4.1 (fun _ _ => []) ⟨("D").data, ("R").data, ("S").data, false, 2⟩ []
    (("4").data) (Except.ok ([] : List Char)) (by decide) (by decide) rfl
  exact ⟨h1.1, h1.2, claim_C4.2 (fun _ _ => []) ⟨("D").data, ("S").data, ("R").data⟩⟩

/-- Claim C5 (amended).  Accepting a rewrite while `rewritten` is empty leaves
`content` unchanged and cannot raise, and the nothing-to-accept condition is
reported, in both front ends; but the terminal front end additionally
increments `iteration` and — since `approved` stays false — the graph still
routes through the editor node, so a fresh Editor turn *does* occur before
the menu is shown again; the chat front end performs no editor call and
leaves the session state untouched. -/
theorem claim_C5 :
    (∀ (ud : List (List Char) → List (List Char) → List (List Char)) (s : Author.DocState)
        (lines : List (List Char)) (ch : List Char) (llm : Except (List Char) (List Char)),
      pyStrip ch = ("1").data → ¬ (s.iteration = 0 ∧ s.content = []) →
      s.edited_version = [] → s.approved = false →
        (Author.creator_node ud s lines ch llm).1 = { iteration := some (s.iteration + 1) }
        ∧ ("No rewritten version available to accept.").data
            ∈ (Author.creator_node ud s lines ch llm).2
        ∧ Author.route_after_creator
            (Author.applyUpdate s (Author.creator_node ud s lines ch llm).1) = ("editor").data)
    ∧ (∀ (st : Chainlit.SessionState) (resp : List Char), st.edited_version = [] →
        Chainlit.on_accept st resp = (st, [("No rewritten version available to accept.").data])) := by
  constructor
  · intro ud s lines ch llm hch hinit hev happr
    have hred : Author.creator_node ud s lines ch llm
        = ({ iteration := some (s.iteration + 1) },
           Author.menu_prints s ++ [("No rewritten version available to accept.").data]) := by
      unfold Author.creator_node
      rw [if_neg (ne_true_of_eq_false (initial_cond_false hinit)), hch, if_pos (by decide),
        hev, if_neg (by decide)]
    refine ⟨by rw [hred], by rw [hred]; simp, ?_⟩
    rw [hred]
    simp [Author.applyUpdate, Author.route_after_creator, happr]
  · intro st resp hev
    unfold Chainlit.on_accept
    rw [hev, if_neg (by decide)]

/-- Claim C5 counterexample.  After the empty-accept dispatch the terminal
front end routes to `"editor"` (not back to the menu), and the editor node
then performs a real Editor turn on the unchanged content — the claimed
"without transitioning to an Editor turn" is false for the terminal front
end. -/
theorem claim_C5_counterexample :
    Author.route_after_creator (Author.applyUpdate ⟨("Draft").data, [], ("S").data, false, 2⟩
        (Author.creator_node (fun _ _ => []) ⟨("Draft").data, [], ("S").data, false, 2⟩ []
          (("1").data) (Except.ok ([] : List Char))).1) = ("editor").data
    ∧ (Author.editor_node (Author.applyUpdate ⟨("Draft").data, [], ("S").data, false, 2⟩
        (Author.creator_node (fun _ _ => []) ⟨("Draft").data, [], ("S").data, false, 2⟩ []
          (("1").data) (Except.ok ([] : List Char))).1)
        (Except.ok (("resp").data))).1.suggestions = some (("resp").data) := by decide

/-- Claim C5 witness: the empty-accept dispatch evaluated on concrete states in
both front ends. -/
theorem claim_C5_witness :
    (Author.creator_node (fun _ _ => []) ⟨("Draft").data, [], ("S").data, false, 2⟩ []
        (("1").data) (Except.ok ([] : List Char))).1 = { iteration := some 3 }
    ∧ ("No rewritten version available to accept.").data
        ∈ (Author.creator_node (fun _ _ => []) ⟨("Draft").data, [], ("S").data, false, 2⟩ []
            (("1").data) (Except.ok ([] : List Char))).2
    ∧ Author.route_after_creator (Author.applyUpdate ⟨("Draft").data, [], ("S").data, false, 2⟩
        (Author.creator_node (fun _ _ => []) ⟨("Draft").data, [], ("S").data, false, 2⟩ []
          (("1").data) (Except.ok ([] : List Char))).1) = ("editor").data
    ∧ Chainlit.on_accept ⟨("D").data, ("S").data, []⟩ (("resp").data)
        = (⟨("D").data, ("S").data, []⟩, [("No rewritten version available to accept.").data]) := by
  have h1 := claim_C5.1 (fun _ _ => []) ⟨("Draft").data, [], ("S").data, false, 2⟩ []
    (("1").data) (Except.ok ([] : List Char)) (by decide) (by decide) rfl rfl
  exact ⟨h1.1, h1.2.1, h1.2.2, claim_C5.2 ⟨("D").data, ("S").data, []⟩ (("resp").data) rfl⟩

/-- Claim C10 (confirmed).  In the terminal front end, choosing Manual edit and
immediately typing `/done` (so `read_multiline` returns the empty string)
produces the update `{iteration: iteration + 1}` only: `content` is untouched
(not replaced by the empty string), `"(No changes made.)"` is printed, and the
session continues (`approved` is not set, so the loop routes on). -/
theorem claim_C10 (ud : List (List Char) → List (List Char) → List (List Char))
    (s : Author.DocState) (rest : List (List Char)) (ch : List Char)
    (llm : Except (List Char) (List Char))
    (hch : pyStrip ch = ("2").data) (hinit : ¬ (s.iteration = 0 ∧ s.content = []))
    (happr : s.approved = false) :
    (Author.creator_node ud s ((("/done").data) :: rest) ch llm).1
      = { iteration := some (s.iteration + 1) }
    ∧ ("(No changes made.)").data ∈ (Author.creator_node ud s ((("/done").data) :: rest) ch llm).2
    ∧ Author.route_after_creator (Author.applyUpdate s
        (Author.creator_node ud s ((("/done").data) :: rest) ch llm).1) = ("editor").data := by
  have hred : Author.creator_node ud s ((("/done").data) :: rest) ch llm
      = ({ iteration := some (s.iteration + 1) },
         Author.menu_prints s
           ++ (Author.read_multiline (("Edit your draft. Type /done when finished:").data)
               ((("/done").data) :: rest)).2
           ++ [("(No changes made.)").data]) := by
    unfold Author.creator_node
    rw [if_neg (ne_true_of_eq_false (initial_cond_false hinit)), hch, if_neg (by decide),
      if_pos (by decide), read_multiline_done, if_neg (by decide)]
  refine ⟨by rw [hred], by rw [hred]; simp, ?_⟩
  rw [hred]
  simp [Author.applyUpdate, Author.route_after_creator, happr]

/-- Claim C10 witness: the empty manual edit evaluated on a concrete state. -/
theorem claim_C10_witness :
    (Author.creator_node (fun _ _ => []) ⟨("Draft").data, ("R").data, ("S").data, false, 2⟩
        [("/done").data] (("2").data) (Except.ok ([] : List Char))).1
      = { iteration := some 3 }
    ∧ ("(No changes made.)").data
        ∈ (Author.creator_node (fun _ _ => []) ⟨("Draft").data, ("R").data, ("S").data, false, 2⟩
            [("/done").data] (("2").data) (Except.ok ([] : List Char))).2
    ∧ Author.route_after_creator (Author.applyUpdate ⟨("Draft").data, ("R").data, ("S").data, false, 2⟩
        (Author.creator_node (fun _ _ => []) ⟨("Draft").data, ("R").data, ("S").data, false, 2⟩
          [("/done").data] (("2").data) (Except.ok ([] : List Char))).1) = ("editor").data := by
  have h := claim_C10 (fun _ _ => []) ⟨("Draft").data, ("R").data, ("S").data, false, 2⟩ []
    (("2").data) (Except.ok ([] : List Char)) (by decide) (by decide) rfl
  exact h

/-- Claim C3 (amended).  Role-call failures are caught where they occur, a
message is reported, and the loop continues — but the turn is not a strict
no-op: a failed AI revision still increments `iteration` (other fields
unchanged), and a failed Editor call overwrites `suggestions` with a fixed
failure note and clears `rewritten` (while `content`, `iteration` and `done`
are unchanged).  A failure of the very first Creator generation sets the
done flag, ending the session with empty content. -/
theorem claim_C3 :
    (∀ (ud : List (List Char) → List (List Char) → List (List Char)) (s : Author.DocState)
        (lines : List (List Char)) (ch : List Char) (e : List Char),
      s.iteration = 0 → s.content = [] →
      (Author.read_multiline (("What story would you like to create? Provide a suggestion or idea.\nType /done when finished.").data) lines).1 ≠ [] →
        (Author.creator_node ud s lines ch (Except.error e)).1 = { approved := some true }
        ∧ (("Error during initial story generation: ").data ++ e)
            ∈ (Author.creator_node ud s lines ch (Except.error e)).2
        ∧ (Author.applyUpdate s (Author.creator_node ud s lines ch (Except.error e)).1).content = []
        ∧ Author.route_after_creator
            (Author.applyUpdate s (Author.creator_node ud s lines ch (Except.error e)).1)
          = ("end").data)
    ∧ (∀ (ud : List (List Char) → List (List Char) → List (List Char)) (s : Author.DocState)
        (lines : List (List Char)) (ch : List Char) (e : List Char),
      pyStrip ch = ("3").data → ¬ (s.iteration = 0 ∧ s.content = []) → s.approved = false →
      (Author.read_multiline (("Describe how you\x27d like the AI to revise (tone, length, audience, etc.).\nType /done when finished:").data) lines).1 ≠ [] →
        (Author.creator_node ud s lines ch (Except.error e)).1
          = { iteration := some (s.iteration + 1) }
        ∧ (("Error during AI revision: ").data ++ e)
            ∈ (Author.creator_node ud s lines ch (Except.error e)).2
        ∧ Author.route_after_creator
            (Author.applyUpdate s (Author.creator_node ud s lines ch (Except.error e)).1)
          = ("editor").data)
    ∧ (∀ (s : Author.DocState) (e : List Char), pyStrip s.content ≠ [] →
        (Author.editor_node s (Except.error e)).1
          = { suggestions := some (("(Editor call failed. You can continue editing manually.)").data),
              edited_version := some ([] : List Char) }
        ∧ (("Error during editing call: ").data ++ e) ∈ (Author.editor_node s (Except.error e)).2
        ∧ (Author.applyUpdate s (Author.editor_node s (Except.error e)).1).content = s.content
        ∧ (Author.applyUpdate s (Author.editor_node s (Except.error e)).1).iteration = s.iteration
        ∧ (Author.applyUpdate s (Author.editor_node s (Except.error e)).1).approved = s.approved) := by
  refine ⟨?_, ?_, ?_⟩
  · intro ud s lines ch e h0 hc hne
    have hb : (s.iteration == 0 && s.content == ([] : List Char)) = true := by simp [h0, hc]
    have hred : Author.creator_node ud s lines ch (Except.error e)
        = ({ approved := some true },
           Author.welcome_prints lines ++ [("Error during initial story generation: ").data ++ e]) := by
      unfold Author.creator_node
      rw [if_pos hb, if_neg (ne_true_of_eq_false (beq_eq_false_iff_ne.mpr hne))]
    refine ⟨by rw [hred], by rw [hred]; simp, ?_, ?_⟩
    · rw [hred]
      simp [Author.applyUpdate, hc]
    · rw [hred]
      simp [Author.applyUpdate, Author.route_after_creator]
  · intro ud s lines ch e hch hinit happr hne
    have hred : Author.creator_node ud s lines ch (Except.error e)
        = ({ iteration := some (s.iteration + 1) },
           Author.menu_prints s
             ++ (Author.read_multiline (("Describe how you\x27d like the AI to revise (tone, length, audience, etc.).\nType /done when finished:").data) lines).2
             ++ [("Error during AI revision: ").data ++ e]) := by
      unfold Author.creator_node
      rw [if_neg (ne_true_of_eq_false (initial_cond_false hinit)), hch, if_neg (by decide),
        if_neg (by decide), if_pos (by decide), read_multiline_fst_strip,
        if_neg (ne_true_of_eq_false (beq_eq_false_iff_ne.mpr hne))]
    refine ⟨by rw [hred], by rw [hred]; simp, ?_⟩
    rw [hred]
    simp [Author.applyUpdate, Author.route_after_creator, happr]
  · intro s e hc
    have hred : Author.editor_node s (Except.error e)
        = ({ suggestions := some (("(Editor call failed. You can continue editing manually.)").data),
             edited_version := some ([] : List Char) },
           [Author.print_divider (some ((("EDITOR REVIEW — Iteration ").data)
              ++ (toString s.iteration).data)),
            ("Error during editing call: ").data ++ e]) := by
      unfold Author.editor_node
      rw [if_neg (ne_true_of_eq_false (beq_eq_false_iff_ne.mpr hc))]
    refine ⟨by rw [hred], by rw [hred]; simp, by rw [hred]; simp [Author.applyUpdate],
      by rw [hred]; simp [Author.applyUpdate], by rw [hred]; simp [Author.applyUpdate]⟩

/-- Claim C3 counterexample.  Caught failures are *not* no-op turns: a failed
AI revision moves `iteration` from 3 to 4, and a failed Editor call rewrites
`suggestions` and clears `rewritten` — in both cases the resulting state
differs from the starting state. -/
theorem claim_C3_counterexample :
    Author.applyUpdate ⟨("D").data, ("R").data, ("S").data, false, 3⟩
        (Author.creator_node (fun _ _ => []) ⟨("D").data, ("R").data, ("S").data, false, 3⟩
          [("punchier").data] (("3").data) (Except.error (("boom").data))).1
      ≠ ⟨("D").data, ("R").data, ("S").data, false, 3⟩
    ∧ Author.applyUpdate ⟨("D").data, ("R").data, ("S").data, false, 3⟩
        (Author.editor_node ⟨("D").data, ("R").data, ("S").data, false, 3⟩
          (Except.error (("boom").data))).1
      ≠ ⟨("D").data, ("R").data, ("S").data, false, 3⟩ := by decide

/-- Claim C3 witness: the three failure sites evaluated on concrete states. -/
theorem claim_C3_witness :
    (Author.creator_node (fun _ _ => []) ⟨[], [], [], false, 0⟩ [("an idea").data]
        (("x").data) (Except.error (("boom").data))).1 = { approved := some true }
    ∧ (Author.creator_node (fun _ _ => []) ⟨("D").data, ("R").data, ("S").data, false, 3⟩
        [("punchier").data] (("3").data) (Except.error (("boom").data))).1
      = { iteration := some 4 }
    ∧ (Author.editor_node ⟨("D").data, ("R").data, ("S").data, false, 3⟩
        (Except.error (("boom").data))).1
      = { suggestions := some (("(Editor call failed. You can continue editing manually.)").data),
          edited_version := some ([] : List Char) } := by
  have h1 := claim_C3.1 (fun _ _ => []) ⟨[], [], [], false, 0⟩ [("an idea").data]
    (("x").data) (("boom").data) rfl rfl (by decide)
  have h2 := claim_C3.2.1 (fun _ _ => []) ⟨("D").data, ("R").data, ("S").data, false, 3⟩
    [("punchier").data] (("3").data) (("boom").data) (by decide) (by decide) rfl (by decide)
  have h3 := claim_C3.2.2 ⟨("D").data, ("R").data, ("S").data, false, 3⟩ (("boom").data) (by decide)
  exact ⟨h1.1, h2.1, h3.1⟩

/-! ## Claim theorem: saving (C6) -/

/-- The name written by `main` always ends in `".md"` (case-insensitively). -/
theorem mdSuffix_lower (f : List Char) :
    (".md").data.isSuffixOf (pyLower (if (".md").data.isSuffixOf (pyLower f) then f
      else f ++ (".md").data)) = true := by
  by_cases h : (".md").data.isSuffixOf (pyLower f) = true
  · rw [if_pos h]
    exact h
  · rw [if_neg h]
    have hsplit : pyLower (f ++ (".md").data) = pyLower f ++ (".md").data := by
      rw [pyLower, List.map_append]
      rw [show List.map Char.toLower ((".md").data) = (".md").data from by decide]
      rfl
    rw [hsplit]
    simp [List.isSuffixOf_iff_suffix]

/-- Claim C6 (amended).  The terminal front end saves the *whitespace-trimmed*
content plus exactly one trailing newline (not the content verbatim — see
the counterexample), to a name that falls back to the timestamp default and
always ends in `".md"` (appended unless the lower-cased supplied name already
ends in `".md"`); it skips the save entirely when the trimmed content is
empty.  The chat front end writes the content verbatim plus one newline
under the timestamp default name, and skips the save when content is empty. -/
theorem claim_C6 :
    (∀ (content date hm u : List Char), pyStrip content = [] →
        Author.main_save content date hm u = none)
    ∧ (∀ (content date hm u : List Char), pyStrip content ≠ [] →
        Author.main_save content date hm u
          = some (Author.main_save_fname date hm u, pyStrip content ++ [('\n')])
        ∧ (".md").data.isSuffixOf (pyLower (Author.main_save_fname date hm u)) = true)
    ∧ (∀ (st : Chainlit.SessionState) (date hm : List Char), st.content = [] →
        (Chainlit.on_finish st date hm).1 = none)
    ∧ (∀ (st : Chainlit.SessionState) (date hm : List Char), st.content ≠ [] →
        (Chainlit.on_finish st date hm).1 = some (default_name date hm, st.content ++ [('\n')])) := by
  refine ⟨?_, ?_, ?_, ?_⟩
  · intro content date hm u h
    unfold Author.main_save
    rw [if_pos (by simp [h])]
  · intro content date hm u h
    constructor
    · unfold Author.main_save
      rw [if_neg (by simp [h])]
    · unfold Author.main_save_fname
      exact mdSuffix_lower _
  · intro st date hm h
    unfold Chainlit.on_finish
    rw [if_pos (by simp [h])]
  · intro st date hm h
    unfold Chainlit.on_finish
    rw [if_neg (by simp [h])]

/-- Claim C6 counterexample.  With `content = "  Final text  "` the terminal
front end writes `"Final text\n"` — the stripped content — not the claimed
content-plus-newline `"  Final text  \n"`. -/
theorem claim_C6_counterexample :
    Author.main_save (("  Final text  ").data) (("2026-10-12").data) (("0930").data) []
      ≠ some (Author.main_save_fname (("2026-10-12").data) (("0930").data) [],
              ("  Final text  \n").data) := by decide

/-- Claim C6 witness: saving and skipping evaluated concretely in both front
ends. -/
theorem claim_C6_witness :
    Author.main_save (("Final text").data) (("2026-10-12").data) (("0930").data) []
      = some ((("draft_2026-10-12_0930.md").data : List Char), ("Final text\n").data)
    ∧ Author.main_save ([] : List Char) (("2026-10-12").data) (("0930").data) [] = none
    ∧ (Chainlit.on_finish ⟨("Final text").data, [], []⟩ (("2026-10-12").data) (("0930").data)).1
      = some ((("draft_2026-10-12_0930.md").data : List Char), ("Final text\n").data)
    ∧ (Chainlit.on_finish ⟨[], [], []⟩ (("2026-10-12").data) (("0930").data)).1 = none := by
  refine ⟨?_, claim_C6.1 ([] : List Char) _ _ [] rfl, ?_, claim_C6.2.2.1 ⟨[], [], []⟩ _ _ rfl⟩
  · exact (claim_C6.2.1 (("Final text").data) (("2026-10-12").data) (("0930").data) []
      (by decide)).1.trans (by decide)
  · exact (claim_C6.2.2.2 ⟨("Final text").data, [], []⟩ (("2026-10-12").data) (("0930").data)
      (by decide)).trans (by decide)
